import Mathlib

/-!
Shallow embedding of `src/app.py` (crypto email updates app).

Conventions of the embedding:
* The network, the system clock and the subscriber file are passed
  explicitly: HTTP responses are functions from the request data to a
  response value, `datetime.now().strftime` is a `today : String`
  argument, and the `subscribers.json` file is a `FileContents` value.
* A Python `float` carries out no arithmetic in this program; every float
  is only parsed and formatted.  Floats are therefore embedded as the
  exact rational value of the IEEE-754 double, and the `.2f` / `,.2f`
  format specifiers as correct (round-half-to-even) decimal rounding of
  that rational, which is what CPython implements.
* A raised exception is `Except.error ()`; a returned value is
  `Except.ok v`.  Python `None` results are `Option.none`.
* Streamlit warnings/errors (`st.warning`, `st.error`) are recorded in an
  explicit emission list, since the spec treats them as an observable
  side channel.
-/

/-! ### Subscriber store (`load_subscribers`, `save_subscribers`, app.py lines 96-107) -/

/-- State of the `subscribers.json` file: absent (open raises
`FileNotFoundError`), present but not valid JSON (`json.load` raises
`JSONDecodeError`), or present and parsing to a list of strings. -/
inductive FileContents where
  | absent : FileContents
  | malformed : FileContents
  | parsed (l : List String) : FileContents
deriving DecidableEq, Repr

/-- Embeds `load_subscribers` (app.py lines 102-107): `try: json.load(open(...))`
with `except (FileNotFoundError, json.JSONDecodeError): return []`.  The
return type is a plain `List String`: no error can be surfaced. -/
def load_subscribers : FileContents → List String
  | .absent => []
  | .malformed => []
  | .parsed l => l

/-- Embeds `save_subscribers` (app.py lines 97-99): `json.dump(subscribers, f)`
overwrites the whole file, which afterwards parses back to the written list. -/
def save_subscribers (subscribers : List String) : FileContents :=
  .parsed subscribers

/-! ### Substring containment (Python `in` on strings) -/

/-- Whether `pat` occurs at the head of `s` (character lists). -/
def charsPrefix : List Char → List Char → Bool
  | [], _ => true
  | _ :: _, [] => false
  | a :: ps, b :: ss => a = b && charsPrefix ps ss

/-- Whether `pat` occurs anywhere inside `s` (character lists). -/
def charsContain (pat : List Char) : List Char → Bool
  | [] => pat.isEmpty
  | b :: rest => charsPrefix pat (b :: rest) || charsContain pat rest

/-- Python substring test `pat in s`. -/
def strContains (s pat : String) : Bool :=
  charsContain pat.toList s.toList

/-! ### Subscribe action (app.py lines 143-153, the Subscribe button handler) -/

/-- Outcome reported to the user by the subscribe handler. -/
inductive SubscribeResult where
  | invalid_email : SubscribeResult
  | already_subscribed : SubscribeResult
  | added : SubscribeResult
deriving DecidableEq, Repr

/-- Embeds the Subscribe button handler (app.py lines 143-153):
`if not email or "@" not in email` reject; else load, membership test,
append and save.  Returns the reported outcome, the resulting file state,
and whether a save was performed. -/
def subscribe (email : String) (fs : FileContents) :
    SubscribeResult × FileContents × Bool :=
  if email = "" ∨ strContains email "@" = false then
    (.invalid_email, fs, false)
  else
    let subscribers := load_subscribers fs
    if email ∈ subscribers then
      (.already_subscribed, fs, false)
    else
      (.added, save_subscribers (subscribers ++ [email]), true)

/-! ### Price snapshot and Python float formatting -/

/-- The parsed body of a 200 price-API response, as used by the app:
`crypto_data["bitcoin"]["usd"]`, `crypto_data["bitcoin"]["usd_24h_change"]`,
`crypto_data["ethereum"]["usd"]`, `crypto_data["ethereum"]["usd_24h_change"]`.
Each number is the exact rational value of the IEEE-754 double produced by
JSON parsing. -/
structure CryptoData where
  bitcoin_usd : ℚ
  bitcoin_usd_24h_change : ℚ
  ethereum_usd : ℚ
  ethereum_usd_24h_change : ℚ
deriving DecidableEq, Repr

/-- Round `num / den` (with `den > 0`) to the nearest integer, ties to even:
the rounding CPython applies when formatting a double with `.2f`. -/
def roundHalfEvenNat (num den : Nat) : Nat :=
  let q := num / den
  let r := num % den
  if 2 * r < den then q
  else if den < 2 * r then q + 1
  else if q % 2 = 0 then q else q + 1

/-- Digits-with-thousands-separators: input is the reversed digit list of the
integer part; a comma is inserted after every third digit. -/
def groupThrees : List Char → List Char
  | a :: b :: c :: d :: rest => a :: b :: c :: ',' :: groupThrees (d :: rest)
  | l => l

/-- Render a natural number with commas every three digits, as Python's
`,` format option does for the integer part. -/
def withCommas (n : Nat) : String :=
  String.mk (groupThrees (toString n).toList.reverse).reverse

/-- Two-digit rendering of a fraction-of-one-hundred. -/
def twoDigits (n : Nat) : String :=
  if n < 10 then "0" ++ toString n else toString n

/-- Embeds the Python format expression `f"{q:,.2f}"`: sign, integer part
with thousands separators, and two correctly rounded decimals. -/
def formatCommaF2 (q : ℚ) : String :=
  let cents := roundHalfEvenNat (q.num.natAbs * 100) q.den
  (if q.num < 0 then "-" else "") ++ withCommas (cents / 100) ++ "." ++ twoDigits (cents % 100)

/-- Embeds the Python format expression `f"{q:.2f}"`: sign, plain integer
part, and two correctly rounded decimals. -/
def formatF2 (q : ℚ) : String :=
  let cents := roundHalfEvenNat (q.num.natAbs * 100) q.den
  (if q.num < 0 then "-" else "") ++ toString (cents / 100) ++ "." ++ twoDigits (cents % 100)

/-! ### Digest renderer (`create_email_content`, app.py lines 56-72) -/

/-- Embeds `create_email_content` (app.py lines 56-72).  The Python function
takes only `crypto_data`; the date it interpolates is read inside the
function from the system clock (`datetime.now().strftime(...)`), embedded
here as the explicit `today` argument.  The function returns only the HTML
body; no subject is produced here (the subject is a constant set by
`send_daily_updates`). -/
def create_email_content (crypto_data : CryptoData) (today : String) : String :=
  let btc_price := crypto_data.bitcoin_usd
  let btc_change := crypto_data.bitcoin_usd_24h_change
  let eth_price := crypto_data.ethereum_usd
  let eth_change := crypto_data.ethereum_usd_24h_change
  "\n    <h2>Daily Cryptocurrency Update</h2>\n    <p>Date: " ++ today ++
  "</p>\n    <h3>Bitcoin (BTC)</h3>\n    <p>Current Price: $" ++ formatCommaF2 btc_price ++
  "</p>\n    <p>24h Change: " ++ formatF2 btc_change ++
  "%</p>\n    <h3>Ethereum (ETH)</h3>\n    <p>Current Price: $" ++ formatCommaF2 eth_price ++
  "</p>\n    <p>24h Change: " ++ formatF2 eth_change ++ "%</p>\n    "

/-- The snapshot of the rendering scenario: bitcoin usd 65000.5 with 24h
change -2.345, ethereum usd 3200.0 with 24h change 1.2.  Each field is the
exact rational value of the corresponding IEEE-754 double
(`(-2.345).as_integer_ratio() = (-5280470563091907, 2251799813685248)`,
`(1.2).as_integer_ratio() = (5404319552844595, 4503599627370496)`;
65000.5 and 3200.0 are exactly representable). -/
def c6Snapshot : CryptoData where
  bitcoin_usd := ⟨130001, 2, by norm_num, by norm_num⟩
  bitcoin_usd_24h_change := ⟨-5280470563091907, 2251799813685248, by norm_num, by norm_num⟩
  ethereum_usd := 3200
  ethereum_usd_24h_change := ⟨5404319552844595, 4503599627370496, by norm_num, by norm_num⟩

/-! ### Price fetcher (`fetch_crypto_data`, app.py lines 13-36) -/

/-- A price-API HTTP response: its status code, and the result of parsing
its body as JSON (`none` models a body on which `response.json()` raises). -/
structure PriceResp where
  status : Nat
  jsonBody : Option CryptoData
deriving DecidableEq, Repr

/-- Streamlit messages emitted by `fetch_crypto_data`: the retry warning
(line 27), the rate-limit-exceeded error (line 31), and the generic
fetch error carrying the status code (line 33). -/
inductive Emit where
  | warnRateRetry : Emit
  | errRateExceeded : Emit
  | errUpstream (status : Nat) : Emit
deriving DecidableEq, Repr

/-- Decidable equality of `Except` values, component by component. -/
instance exceptDecEq {ε α : Type} [DecidableEq ε] [DecidableEq α] :
    DecidableEq (Except ε α) := fun a b =>
  match a, b with
  | .error e, .error f =>
    if h : e = f then .isTrue (h ▸ rfl)
    else .isFalse fun hh => h (Except.error.inj hh)
  | .ok x, .ok y =>
    if h : x = y then .isTrue (h ▸ rfl)
    else .isFalse fun hh => h (Except.ok.inj hh)
  | .error _, .ok _ => .isFalse fun hh => Except.noConfusion hh
  | .ok _, .error _ => .isFalse fun hh => Except.noConfusion hh

/-- Observable outcome of one call to `fetch_crypto_data`: the returned
value (`Except.error ()` models an exception from `response.json()`,
`Except.ok none` models `return None`), the list of `time.sleep`
durations in order, the Streamlit messages in order, and the number of
HTTP GET attempts made. -/
structure FetchOut where
  result : Except Unit (Option CryptoData)
  sleeps : List Nat
  emits : List Emit
  attemptsMade : Nat
deriving DecidableEq, Repr

/-- The body of the `for attempt in range(max_retries)` loop of
`fetch_crypto_data` (app.py lines 21-36), with the remaining iteration
count as structural fuel (`fuel = max_retries - attempt` at every call
from `fetch_crypto_data`).  On 200 return the parsed body (raising if the
body is not JSON); on 429 sleep `delay` and double it unless this is the
last attempt (in which case the error is emitted and the loop runs out);
on any other status emit the error and return `None`; when the loop ends,
return `None`. -/
def fetchAux (resp : Nat → PriceResp) (max_retries : Nat) :
    Nat → Nat → Nat → FetchOut
  | 0, _, _ => ⟨.ok none, [], [], 0⟩
  | fuel + 1, attempt, delay =>
    let response := resp attempt
    if response.status = 200 then
      ⟨match response.jsonBody with
        | some j => .ok (some j)
        | none => .error (), [], [], 1⟩
    else if response.status = 429 then
      if attempt < max_retries - 1 then
        let rest := fetchAux resp max_retries fuel (attempt + 1) (delay * 2)
        ⟨rest.result, delay :: rest.sleeps, .warnRateRetry :: rest.emits,
          rest.attemptsMade + 1⟩
      else
        let rest := fetchAux resp max_retries fuel (attempt + 1) delay
        ⟨rest.result, rest.sleeps, .errRateExceeded :: rest.emits,
          rest.attemptsMade + 1⟩
    else
      ⟨.ok none, [], [.errUpstream response.status], 1⟩

/-- Embeds `fetch_crypto_data(max_retries=3, retry_delay=5)` (app.py lines
13-36).  `resp` gives the HTTP response of each GET attempt. -/
def fetch_crypto_data (resp : Nat → PriceResp) (max_retries : Nat := 3)
    (retry_delay : Nat := 5) : FetchOut :=
  fetchAux resp max_retries max_retries 0 retry_delay

/-! ### Email sender (`send_email`, app.py lines 39-53) -/

/-- An email-API HTTP response: status code and the result of parsing its
body as JSON (`none` models a body on which `response.json()` raises; the
parsed JSON value is kept opaque as a string). -/
structure EmailResp where
  status : Nat
  jsonBody : Option String
deriving DecidableEq, Repr

/-- Embeds `send_email` (app.py lines 39-53): one POST, then
`return response.status_code == 200, response.json()`.  The JSON parse is
unconditional — `response.json()` is evaluated for every status code, and
raises (`Except.error ()`) whenever the body is not valid JSON. -/
def send_email (net : String → String → String → EmailResp)
    (recipient subject html_content : String) : Except Unit (Bool × String) :=
  let response := net recipient subject html_content
  match response.jsonBody with
  | none => .error ()
  | some j => .ok (decide (response.status = 200), j)

/-! ### Daily dispatcher (`send_daily_updates`, app.py lines 75-94) -/

/-- One line of the dispatcher's per-run output (the `print` calls of
app.py lines 78, 83, 92, 94). -/
inductive LogEntry where
  | noSubscribers : LogEntry
  | fetchFailed : LogEntry
  | sentOk (email : String) : LogEntry
  | sendFailed (email : String) (response : String) : LogEntry
deriving DecidableEq, Repr

/-- The `for email in subscribers` loop of `send_daily_updates` (app.py
lines 89-94): each recipient's outcome is recorded in order; an exception
raised by `send_email` is not caught and aborts the whole loop. -/
def sendLoop (net : String → String → String → EmailResp)
    (subject html : String) : List String → Except Unit (List LogEntry)
  | [] => .ok []
  | email :: rest =>
    match send_email net email subject html with
    | .error e => .error e
    | .ok (success, response) =>
      match sendLoop net subject html rest with
      | .error e => .error e
      | .ok log =>
        .ok ((if success then LogEntry.sentOk email
              else LogEntry.sendFailed email response) :: log)

/-- Embeds `send_daily_updates` (app.py lines 75-94): load subscribers
(empty list short-circuits), fetch prices with the default arguments
(falsy result short-circuits), render once, then send to each subscriber
in order.  `fs` is the subscriber file, `priceResp` the price API,
`net` the email API, `today` the current date. -/
def send_daily_updates (fs : FileContents) (priceResp : Nat → PriceResp)
    (net : String → String → String → EmailResp) (today : String) :
    Except Unit (List LogEntry) :=
  let subscribers := load_subscribers fs
  if subscribers.isEmpty then .ok [.noSubscribers]
  else
    match (fetch_crypto_data priceResp).result with
    | .error e => .error e
    | .ok none => .ok [.fetchFailed]
    | .ok (some crypto_data) =>
      let email_content := create_email_content crypto_data today
      let subject := "Daily Cryptocurrency Update"
      sendLoop net subject email_content subscribers

/-- The log entry the dispatcher records for one recipient whose
email-API response body parses as JSON: success iff the status is 200.
(The `noSubscribers` arm is unreachable under that hypothesis.) -/
def expectedLogEntry (net : String → String → String → EmailResp)
    (subject html email : String) : LogEntry :=
  match (net email subject html).jsonBody with
  | none => .noSubscribers
  | some j =>
    if (net email subject html).status = 200 then .sentOk email
    else .sendFailed email j

/-! ### Concrete inputs used by witnesses and counterexamples -/

/-- Price API behavior: 429 on the first two attempts, then 200 with a
parseable body. -/
def price429twice : Nat → PriceResp :=
  fun i => if i < 2 then ⟨429, none⟩ else ⟨200, some c6Snapshot⟩

/-- Price API behavior: 429 on every attempt. -/
def price429always : Nat → PriceResp :=
  fun _ => ⟨429, none⟩

/-- Price API behavior: immediate 200 with a parseable body. -/
def priceOk : Nat → PriceResp :=
  fun _ => ⟨200, some c6Snapshot⟩

/-- A subscriber file holding two addresses. -/
def twoSubscribers : FileContents :=
  .parsed ["a@x.com", "b@y.com"]

/-- Email API behavior whose response bodies are all valid JSON: delivery
to `a@x.com` fails with status 500, every other delivery succeeds. -/
def jsonNet : String → String → String → EmailResp :=
  fun recipient _ _ =>
    if recipient = "a@x.com" then ⟨500, some "boom"⟩ else ⟨200, some "id"⟩

/-- Email API behavior whose response body for `a@x.com` is not valid
JSON (status 500); every other delivery succeeds with a JSON body. -/
def rawNet : String → String → String → EmailResp :=
  fun recipient _ _ =>
    if recipient = "a@x.com" then ⟨500, none⟩ else ⟨200, some "id"⟩

/-- Round trip of the store: what `save_subscribers` wrote is what
`load_subscribers` reads back. -/
theorem load_save (l : List String) :
    load_subscribers (save_subscribers l) = l := rfl

/-! ### C9: load swallows absence and corruption -/

/-- C9: `load_subscribers` returns the empty list when the storage file is
absent and when its contents cannot be parsed; its return type is a plain
list, so the corruption can never surface to the caller as an error. -/
theorem load_subscribers_swallows_corruption :
    load_subscribers .absent = [] ∧ load_subscribers .malformed = [] :=
  ⟨rfl, rfl⟩

/-! ### C6: the concrete rendering scenario -/

set_option maxRecDepth 40000 in
/-- C6: rendering the snapshot (bitcoin 65000.5 / -2.345, ethereum 3200.0
/ 1.2) on 2024-01-15 yields a body containing the four expected
substrings; in particular the IEEE-754 double of -2.345 is slightly above
2.345 in magnitude, so `.2f` rounds it to -2.35 as the claim states. -/
theorem render_scenario_substrings :
    strContains (create_email_content c6Snapshot "2024-01-15")
      "Current Price: $65,000.50" = true ∧
    strContains (create_email_content c6Snapshot "2024-01-15")
      "24h Change: -2.35%" = true ∧
    strContains (create_email_content c6Snapshot "2024-01-15")
      "Current Price: $3,200.00" = true ∧
    strContains (create_email_content c6Snapshot "2024-01-15")
      "24h Change: 1.20%" = true := by
  decide

/-! ### C5: the renderer reads the clock -/

/-- C5 counterexample: the body returned by `create_email_content` changes
with the system clock alone — the same snapshot rendered when
`datetime.now()` falls on 2024-01-15 and on 2024-01-16 gives different
bytes, so the Python function (whose only parameter is the snapshot) is
not a pure function of a (snapshot, date) argument pair: the date is
obtained by I/O inside the function.  It also returns only a body; no
subject is produced by the renderer. -/
theorem render_depends_on_clock :
    create_email_content c6Snapshot "2024-01-15" ≠
      create_email_content c6Snapshot "2024-01-16" := by
  decide

/-- C5 amended: with the clock made explicit, `create_email_content` is
deterministic — its output is a function of exactly the four snapshot
fields and the current date, so two calls with the same snapshot made
while the clock shows the same date produce byte-identical bodies. -/
theorem render_deterministic (d1 d2 : CryptoData) (t1 t2 : String)
    (hb : d1.bitcoin_usd = d2.bitcoin_usd)
    (hbc : d1.bitcoin_usd_24h_change = d2.bitcoin_usd_24h_change)
    (he : d1.ethereum_usd = d2.ethereum_usd)
    (hec : d1.ethereum_usd_24h_change = d2.ethereum_usd_24h_change)
    (ht : t1 = t2) :
    create_email_content d1 t1 = create_email_content d2 t2 := by
  simp only [create_email_content, hb, hbc, he, hec, ht]

/-- Witness for the amended C5 at a concrete snapshot and date. -/
theorem render_deterministic_witness :
    create_email_content c6Snapshot "2024-01-15" =
      create_email_content c6Snapshot "2024-01-15" :=
  render_deterministic c6Snapshot c6Snapshot "2024-01-15" "2024-01-15"
    rfl rfl rfl rfl rfl

/-! ### C8: subscribe rejects addresses without an at sign -/

/-- C8: for every string not containing an at sign, the subscribe handler
reports `invalid_email`, leaves the file untouched, and performs no save
(in the code, the load/append/save branch is never entered). -/
theorem subscribe_rejects_no_at (email : String) (fs : FileContents)
    (h : strContains email "@" = false) :
    subscribe email fs = (.invalid_email, fs, false) := by
  simp [subscribe, h]

/-- Witness for C8 at the concrete input "nodomain". -/
theorem subscribe_rejects_no_at_witness :
    strContains "nodomain" "@" = false ∧
    subscribe "nodomain" (.parsed ["a@x.com"]) =
      (.invalid_email, .parsed ["a@x.com"], false) :=
  ⟨by decide, subscribe_rejects_no_at "nodomain" (.parsed ["a@x.com"]) (by decide)⟩

/-! ### C7: subscribing twice -/

/-- C7: for every email containing an at sign, starting from a stored list
holding at most one occurrence of it, subscribing twice in sequence makes
the second call report `already_subscribed` and perform no save, and
leaves the stored list with exactly one occurrence of the email. -/
theorem subscribe_twice_once (email : String) (fs : FileContents)
    (hat : strContains email "@" = true)
    (hcount : (load_subscribers fs).count email ≤ 1) :
    (subscribe email (subscribe email fs).2.1).1 = .already_subscribed ∧
    (subscribe email (subscribe email fs).2.1).2.2 = false ∧
    (load_subscribers (subscribe email (subscribe email fs).2.1).2.1).count email
      = 1 := by
  have hne : email ≠ "" := by
    intro h; subst h; exact absurd hat (by decide)
  by_cases hmem : email ∈ load_subscribers fs
  · have h1 : subscribe email fs = (.already_subscribed, fs, false) := by
      simp [subscribe, hne, hat, hmem]
    have hone : (load_subscribers fs).count email = 1 := by
      have hpos := List.count_pos_iff.mpr hmem
      omega
    rw [h1]
    simp [subscribe, hne, hat, hmem, hone]
  · have h1 : subscribe email fs =
        (.added, save_subscribers (load_subscribers fs ++ [email]), true) := by
      simp [subscribe, hne, hat, hmem]
    rw [h1]
    simp [subscribe, hne, hat, load_save, List.count_append,
      List.count_eq_zero_of_not_mem hmem]

/-- Witness for C7: subscribing "a@x.com" twice starting from an empty
stored list. -/
theorem subscribe_twice_once_witness :
    (load_subscribers (.parsed [])).count "a@x.com" ≤ 1 ∧
    ((subscribe "a@x.com" (subscribe "a@x.com" (.parsed [])).2.1).1
        = .already_subscribed ∧
      (subscribe "a@x.com" (subscribe "a@x.com" (.parsed [])).2.1).2.2 = false ∧
      (load_subscribers
          (subscribe "a@x.com" (subscribe "a@x.com" (.parsed [])).2.1).2.1).count
          "a@x.com" = 1) :=
  ⟨by decide, subscribe_twice_once "a@x.com" (.parsed []) (by decide) (by decide)⟩

/-! ### C1, C2: retry/backoff of the price fetcher -/

/-- The doubling-backoff sleep schedule: prepending the base delay to a
schedule that starts doubled gives the schedule of length one more. -/
theorem sleeps_cons (delay k : Nat) :
    delay :: (List.range k).map (fun i => delay * 2 * 2 ^ i) =
      (List.range (k + 1)).map (fun i => delay * 2 ^ i) := by
  rw [List.range_succ_eq_map, List.map_cons, List.map_map]
  refine congrArg₂ _ (by simp) ?_
  refine List.map_congr_left ?_
  intro i _
  simp only [Function.comp_apply, pow_succ]
  ring

/-- Behavior of the fetch loop from position `attempt` when the next `k`
responses are 429 and the one after is a parseable 200, with the fuel that
`fetch_crypto_data` supplies. -/
theorem fetchAux_429_then_200 (resp : Nat → PriceResp) (max_retries : Nat)
    (j : CryptoData) :
    ∀ k attempt delay, (∀ i, i < k → (resp (attempt + i)).status = 429) →
    (resp (attempt + k)).status = 200 →
    (resp (attempt + k)).jsonBody = some j →
    attempt + k < max_retries →
    fetchAux resp max_retries (max_retries - attempt) attempt delay =
      ⟨.ok (some j), (List.range k).map (fun i => delay * 2 ^ i),
        List.replicate k .warnRateRetry, k + 1⟩ := by
  intro k
  induction k with
  | zero =>
    intro attempt delay _ h200 hjson hlt
    obtain ⟨f, hf⟩ : ∃ f, max_retries - attempt = f + 1 :=
      ⟨max_retries - attempt - 1, by omega⟩
    rw [hf]
    simp only [Nat.add_zero] at h200 hjson
    simp [fetchAux, h200, hjson]
  | succ k ih =>
    intro attempt delay h429 h200 hjson hlt
    obtain ⟨f, hf⟩ : ∃ f, max_retries - attempt = f + 1 :=
      ⟨max_retries - attempt - 1, by omega⟩
    have hs0 : (resp attempt).status = 429 := by
      simpa using h429 0 (Nat.succ_pos k)
    have hlt1 : attempt < max_retries - 1 := by omega
    have hrec : fetchAux resp max_retries (max_retries - (attempt + 1))
        (attempt + 1) (delay * 2) =
        ⟨.ok (some j), (List.range k).map (fun i => delay * 2 * 2 ^ i),
          List.replicate k .warnRateRetry, k + 1⟩ := by
      apply ih
      · intro i hi
        have h := h429 (i + 1) (by omega)
        rw [show attempt + (i + 1) = attempt + 1 + i by omega] at h
        exact h
      · rw [show attempt + 1 + k = attempt + (k + 1) by omega]; exact h200
      · rw [show attempt + 1 + k = attempt + (k + 1) by omega]; exact hjson
      · omega
    have hfuel : f = max_retries - (attempt + 1) := by omega
    rw [hf]
    simp only [fetchAux, hs0]
    rw [hfuel, hrec]
    simp [hlt1, List.replicate_succ, sleeps_cons]

/-- C1: for every k below `max_retries`, if the price API returns 429 on
the first k attempts and a parseable 200 on attempt k+1, then
`fetch_crypto_data` sleeps exactly k times with durations
`retry_delay * 2^0, ..., retry_delay * 2^(k-1)` (strictly doubling from
the base delay), emits k retry warnings, makes k+1 attempts, and returns
the parsed body of the final 200 response. -/
theorem fetch_retry_backoff (resp : Nat → PriceResp) (j : CryptoData)
    (max_retries retry_delay k : Nat) (hk : k < max_retries)
    (h429 : ∀ i, i < k → (resp i).status = 429)
    (h200 : (resp k).status = 200)
    (hjson : (resp k).jsonBody = some j) :
    fetch_crypto_data resp max_retries retry_delay =
      ⟨.ok (some j), (List.range k).map (fun i => retry_delay * 2 ^ i),
        List.replicate k .warnRateRetry, k + 1⟩ := by
  have h := fetchAux_429_then_200 resp max_retries j k 0 retry_delay
    (by intro i hi; simpa using h429 i hi)
    (by simpa using h200) (by simpa using hjson) (by omega)
  simpa [fetch_crypto_data] using h

/-- Witness for C1: two 429 responses then a 200, with the default
arguments: sleeps 5 then 10 seconds and returns the parsed body. -/
theorem fetch_retry_backoff_witness :
    fetch_crypto_data price429twice 3 5 =
      ⟨.ok (some c6Snapshot), [5, 10], [.warnRateRetry, .warnRateRetry], 3⟩ := by
  rw [fetch_retry_backoff price429twice c6Snapshot 3 5 2 (by decide)
    (by intro i hi; interval_cases i <;> rfl) rfl rfl]
  decide

/-- C2: with `max_retries = 3` and every attempt answered 429,
`fetch_crypto_data` makes exactly 3 attempts, sleeps exactly twice (the
base delay and its double — never after the final attempt), emits the
rate-limit-exceeded error, and returns `None` (the rate-limited
failure). -/
theorem fetch_all_rate_limited (resp : Nat → PriceResp) (retry_delay : Nat)
    (h429 : ∀ i, i < 3 → (resp i).status = 429) :
    fetch_crypto_data resp 3 retry_delay =
      ⟨.ok none, [retry_delay, retry_delay * 2],
        [.warnRateRetry, .warnRateRetry, .errRateExceeded], 3⟩ := by
  have h0 := h429 0 (by omega)
  have h1 := h429 1 (by omega)
  have h2 := h429 2 (by omega)
  simp [fetch_crypto_data, fetchAux, h0, h1, h2]

/-- Witness for C2: every attempt rate-limited, base delay 5. -/
theorem fetch_all_rate_limited_witness :
    fetch_crypto_data price429always 3 5 =
      ⟨.ok none, [5, 10],
        [.warnRateRetry, .warnRateRetry, .errRateExceeded], 3⟩ := by
  rw [fetch_all_rate_limited price429always 5 (fun i _ => rfl)]

/-! ### C4, C10: dispatcher fan-out and the unconditional JSON parse -/

/-- When every email-API response body parses as JSON, the dispatcher loop
records one entry per recipient, in list order. -/
theorem sendLoop_all_json (net : String → String → String → EmailResp)
    (subject html : String)
    (hjson : ∀ r s h, ((net r s h).jsonBody).isSome = true) :
    ∀ l : List String,
      sendLoop net subject html l = .ok (l.map (expectedLogEntry net subject html)) := by
  intro l
  induction l with
  | nil => rfl
  | cons email rest ih =>
    cases hj : (net email subject html).jsonBody with
    | none => exact absurd (hjson email subject html) (by simp [hj])
    | some j =>
      simp only [sendLoop, send_email, hj, ih, List.map_cons, expectedLogEntry]
      by_cases hs : (net email subject html).status = 200 <;> simp [hs]

/-- C4 counterexample: `run_once` with two subscribers where the email
API answers the first recipient with a non-JSON body: the run raises
(`response.json()` in `send_email` throws) instead of recording a failure
outcome for that recipient, and no delivery to the remaining subscriber is
attempted — the batch aborts with no per-recipient log at all, against the
claim's "for every Email Sender behavior ... without throwing or aborting
the batch". -/
theorem run_once_aborts_on_bad_json :
    send_daily_updates twoSubscribers priceOk rawNet "2024-01-15" = .error () :=
  rfl

/-- C4 amended: for every subscriber list and every Email Sender behavior
whose HTTP response bodies are valid JSON (so `send_email` returns a value
instead of raising), `run_once` with a failing recipient still records a
failure outcome for it and continues through every remaining subscriber in
list order: the log is exactly one entry per subscriber, failed entries
included. -/
theorem run_once_fanout (fs : FileContents) (priceResp : Nat → PriceResp)
    (net : String → String → String → EmailResp) (today : String)
    (data : CryptoData)
    (hjson : ∀ r s h, ((net r s h).jsonBody).isSome = true)
    (hsubs : load_subscribers fs ≠ [])
    (hfetch : (fetch_crypto_data priceResp).result = .ok (some data)) :
    send_daily_updates fs priceResp net today =
      .ok ((load_subscribers fs).map
        (expectedLogEntry net "Daily Cryptocurrency Update"
          (create_email_content data today))) := by
  simp [send_daily_updates, List.isEmpty_iff, hsubs, hfetch,
    sendLoop_all_json net _ _ hjson]

set_option maxRecDepth 40000 in
/-- Witness for the amended C4: two subscribers, delivery to the first
fails with a JSON 500 body, the second still gets its (successful)
attempt, both outcomes recorded in order. -/
theorem run_once_fanout_witness :
    send_daily_updates twoSubscribers priceOk jsonNet "2024-01-15" =
      .ok [.sendFailed "a@x.com" "boom", .sentOk "b@y.com"] := by
  rw [run_once_fanout twoSubscribers priceOk jsonNet "2024-01-15" c6Snapshot
    (by intro r s h; simp only [jsonNet]; split <;> rfl)
    (by decide) rfl]
  decide

/-- C10: `send_email` parses the response body as JSON before returning,
for successes (status 200) and failures alike — for every status code, a
non-JSON body makes it raise rather than return a failure value — and
that exception propagates out of the dispatcher's per-recipient loop: with
the first of two recipients answered by a non-JSON body, the loop aborts
with no outcome recorded and no attempt for the remaining subscriber. -/
theorem send_email_parse_unconditional :
    (∀ status : Nat,
      send_email (fun _ _ _ => ⟨status, none⟩) "r@x.com" "subject" "body"
        = .error ()) ∧
    sendLoop rawNet "subject" "body" ["a@x.com", "b@y.com"] = .error () :=
  ⟨fun _ => rfl, rfl⟩
